import Mathlib

set_option linter.unusedVariables false

/-
Verification of the Bonsai dual-buffer / IO-handoff core.

Shallow embedding of:
  * src/tools/bonsaiRenderer/smoke/GpuArray.h   (class GpuArray<T>)
  * src/runtime/src/main.cpp                    (I/O thread poll loop, lines 831-897)

Machine pointers are modelled by nullability flags, GL buffer-object names by
natural numbers (0 = no buffer, as in OpenGL), and raw memory by total
functions Nat → T, so that the pointer arithmetic of the source (offsets off
the base of an allocation) is represented exactly, including accesses past the
end of an allocation.
-/

namespace Bonsai

/-- Transfer direction, GpuArray.h lines 45-49. -/
inductive Direction where
  | HOST_TO_DEVICE
  | DEVICE_TO_HOST
deriving DecidableEq

/-- State of a GpuArray<T> object (GpuArray.h lines 86-93) together with the
contents of the memory its pointers refer to and liveness flags for the
resources it has acquired.

Fields m_dptr0/m_dptr1 model the two entries of `T *m_dptr[2]` as nullability
flags (true = non-null).  m_vbo0/m_vbo1 model `GLuint m_vbo[2]` (0 = no buffer
object, as in OpenGL).  m_hptr models `T *m_hptr` as a nullability flag.
hostMem and devMem0/devMem1 are the contents of the host allocation and of the
two device-side stores (device memory or the buffer-object backing store).
devHeld0/devHeld1 record that the cudaMalloc allocation of slot 0/1 is live;
vboHeld0/vboHeld1 record that the GL buffer object and its CUDA registration
for slot 0/1 are live. -/
@[ext]
structure GpuArray (T : Type) where
  m_size : Nat
  m_dptr0 : Bool
  m_dptr1 : Bool
  m_vbo0 : Nat
  m_vbo1 : Nat
  m_hptr : Bool
  m_useVBO : Bool
  m_doubleBuffer : Bool
  m_currentRead : Fin 2
  m_currentWrite : Fin 2
  hostMem : Nat → T
  devMem0 : Nat → T
  devMem1 : Nat → T
  devHeld0 : Bool
  devHeld1 : Bool
  vboHeld0 : Bool
  vboHeld1 : Bool

variable {T : Type}

/-- Constructor GpuArray() (GpuArray.h lines 96-108).  The constructor leaves
m_useVBO and m_doubleBuffer uninitialized and the memory contents are
indeterminate; they are taken as parameters here. -/
def GpuArray.init (useVBO0 doubleBuffer0 : Bool) (h0 d0 d1 : Nat → T) : GpuArray T :=
  { m_size := 0
    m_dptr0 := false
    m_dptr1 := false
    m_vbo0 := 0
    m_vbo1 := 0
    m_hptr := false
    m_useVBO := useVBO0
    m_doubleBuffer := doubleBuffer0
    m_currentRead := 0
    m_currentWrite := 0
    hostMem := h0
    devMem0 := d0
    devMem1 := d1
    devHeld0 := false
    devHeld1 := false
    vboHeld0 := false
    vboHeld1 := false }

/-- allocHost (GpuArray.h lines 148-153): m_hptr = new T[m_size].  The fresh
allocation's contents are indeterminate; the model keeps the previous
hostMem as one arbitrary choice. -/
def GpuArray.allocHost (s : GpuArray T) : GpuArray T :=
  { s with m_hptr := true }

/-- allocDevice (GpuArray.h lines 165-173): cudaMalloc for slot 0 and, if
double-buffered, slot 1. -/
def GpuArray.allocDevice (s : GpuArray T) : GpuArray T :=
  let s1 := { s with m_dptr0 := true, devHeld0 := true }
  if s1.m_doubleBuffer then { s1 with m_dptr1 := true, devHeld1 := true } else s1

/-- allocVbo (GpuArray.h lines 211-219), with createVbo (lines 190-209)
folded in: createVbo's glGenBuffers / glBufferData / cudaGLRegisterBufferObject
sequence yields a fresh nonzero buffer name and a live registration, modelled
by the fixed nonzero names 1 and 2 and the vboHeld flags.  useElementArray
only selects the GL binding target and has no further modelled effect. -/
def GpuArray.allocVbo (s : GpuArray T) (useElementArray : Bool) : GpuArray T :=
  let s1 := { s with m_vbo0 := 1, vboHeld0 := true }
  if s1.m_doubleBuffer then { s1 with m_vbo1 := 2, vboHeld1 := true } else s1

/-- alloc (GpuArray.h lines 116-134). -/
def GpuArray.alloc (s : GpuArray T) (size : Nat) (vbo doubleBuffer useElementArray : Bool) :
    GpuArray T :=
  let s1 := { s with
    m_size := size
    m_useVBO := vbo
    m_doubleBuffer := doubleBuffer
    m_currentWrite := if doubleBuffer then 1 else s.m_currentWrite }
  let s2 := s1.allocHost
  if vbo then s2.allocVbo useElementArray else s2.allocDevice

/-- freeHost (GpuArray.h lines 155-163). -/
def GpuArray.freeHost (s : GpuArray T) : GpuArray T :=
  if s.m_hptr then { s with m_hptr := false } else s

/-- freeDevice (GpuArray.h lines 175-188): cudaFree each non-null slot. -/
def GpuArray.freeDevice (s : GpuArray T) : GpuArray T :=
  let s1 := if s.m_dptr0 then { s with m_dptr0 := false, devHeld0 := false } else s
  if s1.m_dptr1 then { s1 with m_dptr1 := false, devHeld1 := false } else s1

/-- freeVbo (GpuArray.h lines 221-236): unregister and delete each nonzero
buffer object. -/
def GpuArray.freeVbo (s : GpuArray T) : GpuArray T :=
  let s1 := if s.m_vbo0 ≠ 0 then { s with vboHeld0 := false, m_vbo0 := 0 } else s
  if s1.m_vbo1 ≠ 0 then { s1 with vboHeld1 := false, m_vbo1 := 0 } else s1

/-- free (GpuArray.h lines 136-146).  The source tests `if (m_vbo)` where
m_vbo is the member array `GLuint m_vbo[2]`; the array decays to a non-null
pointer, so the test is always true: the freeVbo branch is always taken and
freeDevice is never called. -/
def GpuArray.free (s : GpuArray T) : GpuArray T :=
  s.freeHost.freeVbo

/-- swap (GpuArray.h lines 238-243): unconditional std::swap of the indices. -/
def GpuArray.swap (s : GpuArray T) : GpuArray T :=
  { s with m_currentRead := s.m_currentWrite, m_currentWrite := s.m_currentRead }

/-- map (GpuArray.h lines 245-255): cudaGLMapBufferObject stores a device
pointer into each mapped slot.  The two guarded assignments of the source are
rendered as one simultaneous record update; the conditions do not depend on
m_dptr, so the result is identical. -/
def GpuArray.map (s : GpuArray T) : GpuArray T :=
  { s with
    m_dptr0 := if s.m_vbo0 ≠ 0 then true else s.m_dptr0
    m_dptr1 := if s.m_doubleBuffer = true ∧ s.m_vbo1 ≠ 0 then true else s.m_dptr1 }

/-- unmap (GpuArray.h lines 257-269): cudaGLUnmapBufferObject, then the
device pointer of each unmapped slot is nulled. -/
def GpuArray.unmap (s : GpuArray T) : GpuArray T :=
  { s with
    m_dptr0 := if s.m_vbo0 ≠ 0 then false else s.m_dptr0
    m_dptr1 := if s.m_doubleBuffer = true ∧ s.m_vbo1 ≠ 0 then false else s.m_dptr1 }

/-- getDevicePtr (GpuArray.h line 65): returns m_dptr[m_currentRead]; the
model returns its nullability (true = non-null pointer, false = null). -/
def GpuArray.getDevicePtr (s : GpuArray T) : Bool :=
  if s.m_currentRead = 0 then s.m_dptr0 else s.m_dptr1

/-- Contents of device-side store i. -/
def GpuArray.devMemAt (s : GpuArray T) (i : Fin 2) : Nat → T :=
  if i = 0 then s.devMem0 else s.devMem1

/-- copy (GpuArray.h lines 271-296).  Takes the global device ids devID and
renderDevID (main.cpp lines 81-82) and the device context active at entry, and
returns the new object state together with the device context active on
return: the source executes cudaSetDevice(renderDevID) before the transfer and
cudaSetDevice(devID) after it, never reading the entry context.  memcpy over
T* pointers is byte-exact elementwise assignment over the index range
[start, start+count); when count == 0 the source substitutes m_size. -/
def GpuArray.copy (devID renderDevID activeCtx : Nat) (s : GpuArray T)
    (dir : Direction) (start count : Nat) : GpuArray T × Nat :=
  let count := if count = 0 then s.m_size else count
  let s1 := s.map
  let s2 :=
    match dir with
    | Direction.HOST_TO_DEVICE =>
        if s1.m_currentRead = 0 then
          { s1 with devMem0 := fun j =>
              if start ≤ j ∧ j < start + count then s1.hostMem j else s1.devMem0 j }
        else
          { s1 with devMem1 := fun j =>
              if start ≤ j ∧ j < start + count then s1.hostMem j else s1.devMem1 j }
    | Direction.DEVICE_TO_HOST =>
        { s1 with hostMem := fun j =>
            if start ≤ j ∧ j < start + count then s1.devMemAt s1.m_currentRead j
            else s1.hostMem j }
  let s3 := s2.unmap
  (s3, devID)

/-- memset (GpuArray.h lines 299-304): the body of the source function is
empty, so the object is returned unchanged. -/
def GpuArray.memset (s : GpuArray T) (value : T) (start count : Nat) : GpuArray T :=
  s

/-- An external device-side write through the mapped pointers (the use the
renderer makes of getDevicePtr between map and unmap): it can change only the
contents of the two device-side stores. -/
def GpuArray.devWrite (s : GpuArray T) (g0 g1 : Nat → T) : GpuArray T :=
  { s with devMem0 := g0, devMem1 := g1 }

/-- One client-visible operation on a GpuArray. -/
inductive GpuOp (T : Type) where
  | allocOp (size : Nat) (vbo doubleBuffer useElementArray : Bool)
  | freeOp
  | swapOp
  | mapOp
  | unmapOp
  | copyOp (dir : Direction) (start count : Nat)
  | memsetOp (value : T) (start count : Nat)
  | devWriteOp (g0 g1 : Nat → T)

/-- Effect of one operation on the object state.  The device-id globals and
the active context do not influence the object state, so copyOp fixes them
arbitrarily. -/
def GpuArray.step (s : GpuArray T) : GpuOp T → GpuArray T
  | .allocOp n v d u => s.alloc n v d u
  | .freeOp => s.free
  | .swapOp => s.swap
  | .mapOp => s.map
  | .unmapOp => s.unmap
  | .copyOp dir a b => (GpuArray.copy 0 0 0 s dir a b).1
  | .memsetOp v a b => s.memset v a b
  | .devWriteOp g0 g1 => s.devWrite g0 g1

/-- Final state after a sequence of operations. -/
def GpuArray.run (s : GpuArray T) : List (GpuOp T) → GpuArray T
  | [] => s
  | op :: ops => (s.step op).run ops

/-- Every state visited while executing a sequence of operations, the start
state included. -/
def GpuArray.states (s : GpuArray T) : List (GpuOp T) → List (GpuArray T)
  | [] => [s]
  | op :: ops => s :: (s.step op).states ops

/-- Role-index invariant on the raw control data: for a non-double-buffered
instance both indices are 0; for a double-buffered instance the pair of
indices is exactly the two distinct values 0 and 1. -/
def roleInvC (db : Bool) (r w : Fin 2) : Bool :=
  if db then (r == 0 && w == 1) || (r == 1 && w == 0)
  else r == 0 && w == 0

/-- Role-index invariant of a GpuArray state. -/
def roleInv (s : GpuArray T) : Bool :=
  roleInvC s.m_doubleBuffer s.m_currentRead s.m_currentWrite

/-- Operations other than alloc. -/
def noAllocOp : GpuOp T → Prop
  | .allocOp _ _ _ _ => False
  | _ => True

/-- The control data the role invariant depends on. -/
def ctrl (s : GpuArray T) : Bool × Fin 2 × Fin 2 :=
  (s.m_doubleBuffer, s.m_currentRead, s.m_currentWrite)

/-
The IO handoff channel of main.cpp.  The type IOSharedData_t itself is
declared in a header that is not part of the examined sources; only its use
in main.cpp (lines 831-897) is available.
-/

/-- Modelled from the spec: the IOSharedData_t mailbox declared outside the
examined sources.  Per spec section 3, the SnapshotSlot payload is the
valid-element count, the simulation-time tag and three parallel host arrays;
it is modelled as one abstract payload value of type alpha.  writingFinished
is the polled state flag of main.cpp: true = Idle (slot empty), false =
Ready (slot full). -/
structure IOSharedData (α : Type) where
  writingFinished : Bool
  slot : Option α
deriving DecidableEq

/-- Modelled from the spec: the producer's publish (spec sections 3 and 4.2),
performed inside octree::iterate, which is outside the examined sources: it
populates the slot and sets the flag to Ready (writingFinished = false). -/
def publish {α : Type} (d : IOSharedData α) (x : α) : IOSharedData α :=
  { writingFinished := false, slot := some x }

/-- One consume attempt: the body of the I/O thread's poll loop in main.cpp
lines 866-893.  If the flag is Ready (writingFinished == false) it writes the
snapshot (returned as the first component), releases the slot
(ioSharedData.free()) and returns the flag to Idle; otherwise it leaves the
mailbox unchanged and sleeps (usleep(100), main.cpp line 892).  The middle
component is the microseconds slept. -/
def tryConsume {α : Type} (d : IOSharedData α) : Option α × Nat × IOSharedData α :=
  if d.writingFinished = false then
    (d.slot, 0, { writingFinished := true, slot := none })
  else
    (none, 100, d)

/-- Program counter of the consumer (I/O) thread of main.cpp lines 862-896:
check = at the loop condition, drain = snapshot write issued but slot not yet
released, halted = loop exited. -/
inductive ConsPC where
  | check
  | drain
  | halted
deriving DecidableEq

/-- Joint state of the producer thread (tid 0: tree->iterate() then
simulationFinished = true, main.cpp lines 843-858) and the consumer thread
(tid 1, lines 862-896).  toPublish is the list of snapshots the producer has
still to publish; finSignalSent records that the producer has executed its
single assignment simulationFinished = true; written is the list of snapshots
the consumer has written to disk. -/
structure SysState (α : Type) where
  toPublish : List α
  finSignalSent : Bool
  simulationFinished : Bool
  shared : IOSharedData α
  cons : ConsPC
  written : List α

/-- Initial joint state: simulationFinished = false and
ioSharedData.writingFinished = true (main.cpp lines 831-832), consumer at the
loop head, nothing published or written. -/
def sysInit {α : Type} (xs : List α) : SysState α :=
  { toPublish := xs
    finSignalSent := false
    simulationFinished := false
    shared := { writingFinished := true, slot := none }
    cons := ConsPC.check
    written := [] }

/-- Interleaved small-step semantics of the two threads.
pubStep: modelled from the spec (sections 4.2 and 5) - the producer, inside
the iterate() call that is outside the examined sources, publishes its next
snapshot only after observing Idle.  finStep: the producer's single
simulationFinished = true after iterate() returns (main.cpp line 858).
exitStep / startDrain / finishDrain / sleepStep: the consumer's loop
(lines 864-894): test the loop condition; on Ready issue the snapshot write;
then release the slot and return the flag to Idle; on Idle sleep. -/
inductive SysStep {α : Type} : SysState α → SysState α → Prop where
  | pubStep (s : SysState α) (x : α) (rest : List α) :
      s.toPublish = x :: rest → s.shared.writingFinished = true →
      SysStep s { s with toPublish := rest, shared := publish s.shared x }
  | finStep (s : SysState α) :
      s.toPublish = [] → s.finSignalSent = false →
      SysStep s { s with finSignalSent := true, simulationFinished := true }
  | exitStep (s : SysState α) :
      s.cons = ConsPC.check → s.simulationFinished = true →
      SysStep s { s with cons := ConsPC.halted }
  | startDrain (s : SysState α) (x : α) :
      s.cons = ConsPC.check → s.simulationFinished = false →
      s.shared.writingFinished = false → s.shared.slot = some x →
      SysStep s { s with cons := ConsPC.drain, written := s.written ++ [x] }
  | finishDrain (s : SysState α) :
      s.cons = ConsPC.drain →
      SysStep s { s with cons := ConsPC.check
                         shared := { writingFinished := true, slot := none } }
  | sleepStep (s : SysState α) :
      s.cons = ConsPC.check → s.simulationFinished = false →
      s.shared.writingFinished = true →
      SysStep s s

/-- Reachability of joint states. -/
def SysReach {α : Type} (s0 s : SysState α) : Prop :=
  Relation.ReflTransGen SysStep s0 s

/-
Helper lemmas.
-/

theorem fin2_eq_zero_or_one : ∀ i : Fin 2, i = 0 ∨ i = 1 := by decide

theorem roleInvC_comm : ∀ (db : Bool) (r w : Fin 2), roleInvC db w r = roleInvC db r w := by
  decide

theorem roleInv_eq_of_ctrl {s' s : GpuArray T} (h : ctrl s' = ctrl s) :
    roleInv s' = roleInv s := by
  unfold ctrl at h
  rw [Prod.ext_iff, Prod.ext_iff] at h
  obtain ⟨h1, h2, h3⟩ := h
  unfold roleInv
  rw [show s'.m_doubleBuffer = s.m_doubleBuffer from h1,
      show s'.m_currentRead = s.m_currentRead from h2,
      show s'.m_currentWrite = s.m_currentWrite from h3]

theorem ctrl_allocHost (s : GpuArray T) : ctrl s.allocHost = ctrl s := rfl

theorem ctrl_allocDevice (s : GpuArray T) : ctrl s.allocDevice = ctrl s := by
  simp only [GpuArray.allocDevice]
  split <;> rfl

theorem ctrl_allocVbo (s : GpuArray T) (u : Bool) : ctrl (s.allocVbo u) = ctrl s := by
  simp only [GpuArray.allocVbo]
  split <;> rfl

theorem ctrl_alloc (s : GpuArray T) (n : Nat) (v d u : Bool) :
    ctrl (s.alloc n v d u) =
      (d, s.m_currentRead, if d then 1 else s.m_currentWrite) := by
  simp only [GpuArray.alloc]
  split
  · rw [ctrl_allocVbo, ctrl_allocHost]; rfl
  · rw [ctrl_allocDevice, ctrl_allocHost]; rfl

theorem ctrl_freeHost (s : GpuArray T) : ctrl s.freeHost = ctrl s := by
  simp only [GpuArray.freeHost]
  split <;> rfl

theorem ctrl_freeVbo (s : GpuArray T) : ctrl s.freeVbo = ctrl s := by
  simp only [GpuArray.freeVbo]
  split <;> split <;> rfl

theorem ctrl_freeDevice (s : GpuArray T) : ctrl s.freeDevice = ctrl s := by
  simp only [GpuArray.freeDevice]
  split <;> split <;> rfl

theorem ctrl_free (s : GpuArray T) : ctrl s.free = ctrl s := by
  unfold GpuArray.free
  rw [ctrl_freeVbo, ctrl_freeHost]

theorem ctrl_map (s : GpuArray T) : ctrl s.map = ctrl s := rfl

theorem ctrl_unmap (s : GpuArray T) : ctrl s.unmap = ctrl s := rfl

theorem ctrl_copy (dID rID ctx : Nat) (s : GpuArray T) (dir : Direction) (a b : Nat) :
    ctrl (GpuArray.copy dID rID ctx s dir a b).1 = ctrl s := by
  cases dir <;>
    · simp only [GpuArray.copy]
      first
        | (split <;> rfl)
        | rfl

theorem ctrl_memset (s : GpuArray T) (v : T) (a b : Nat) : ctrl (s.memset v a b) = ctrl s :=
  rfl

theorem ctrl_devWrite (s : GpuArray T) (g0 g1 : Nat → T) : ctrl (s.devWrite g0 g1) = ctrl s :=
  rfl

theorem roleInv_swap (s : GpuArray T) : roleInv s.swap = roleInv s := by
  unfold roleInv GpuArray.swap
  exact roleInvC_comm s.m_doubleBuffer s.m_currentRead s.m_currentWrite

/-- The role invariant is preserved by every operation other than alloc. -/
theorem roleInv_step (s : GpuArray T) (op : GpuOp T) (hop : noAllocOp op)
    (h : roleInv s = true) : roleInv (s.step op) = true := by
  cases op with
  | allocOp n v d u => exact hop.elim
  | freeOp => rw [GpuArray.step, roleInv_eq_of_ctrl (ctrl_free s)]; exact h
  | swapOp => rw [GpuArray.step, roleInv_swap]; exact h
  | mapOp => rw [GpuArray.step, roleInv_eq_of_ctrl (ctrl_map s)]; exact h
  | unmapOp => rw [GpuArray.step, roleInv_eq_of_ctrl (ctrl_unmap s)]; exact h
  | copyOp dir a b => rw [GpuArray.step, roleInv_eq_of_ctrl (ctrl_copy 0 0 0 s dir a b)]; exact h
  | memsetOp v a b => rw [GpuArray.step, roleInv_eq_of_ctrl (ctrl_memset s v a b)]; exact h
  | devWriteOp g0 g1 =>
      rw [GpuArray.step, roleInv_eq_of_ctrl (ctrl_devWrite s g0 g1)]; exact h

theorem roleInv_states (s : GpuArray T) (ops : List (GpuOp T))
    (hops : ∀ op ∈ ops, noAllocOp op) (h : roleInv s = true) :
    ∀ s' ∈ s.states ops, roleInv s' = true := by
  induction ops generalizing s with
  | nil =>
      intro s' hs'
      simp only [GpuArray.states, List.mem_singleton] at hs'
      rw [hs']; exact h
  | cons op ops ih =>
      intro s' hs'
      simp only [GpuArray.states, List.mem_cons] at hs'
      rcases hs' with rfl | hs'
      · exact h
      · exact ih (s.step op) (fun o ho => hops o (List.mem_cons_of_mem op ho))
          (roleInv_step s op (hops op (List.mem_cons_self op ops)) h) s' hs'

/-- The device slot other than i. -/
def otherSlot (i : Fin 2) : Fin 2 := if i = 0 then 1 else 0

/-- The element count a copy call actually transfers: count, except that a
count of 0 is replaced by the full element count of the buffer. -/
def effCount (size count : Nat) : Nat := if count = 0 then size else count

theorem copy_size (dID rID ctx : Nat) (s : GpuArray T) (dir : Direction) (a b : Nat) :
    (GpuArray.copy dID rID ctx s dir a b).1.m_size = s.m_size := by
  cases dir <;>
    · simp only [GpuArray.copy]
      first
        | (split <;> rfl)
        | rfl

theorem copy_read (dID rID ctx : Nat) (s : GpuArray T) (dir : Direction) (a b : Nat) :
    (GpuArray.copy dID rID ctx s dir a b).1.m_currentRead = s.m_currentRead := by
  cases dir <;>
    · simp only [GpuArray.copy]
      first
        | (split <;> rfl)
        | rfl

theorem copy_h2d_hostMem (dID rID ctx : Nat) (s : GpuArray T) (a b j : Nat) :
    (GpuArray.copy dID rID ctx s Direction.HOST_TO_DEVICE a b).1.hostMem j = s.hostMem j := by
  obtain ⟨sz, d0, d1, v0, v1, hp, uv, db, r, w, hm, m0, m1, q0, q1, p0, p1⟩ := s
  rcases fin2_eq_zero_or_one r with rfl | rfl <;> rfl

theorem copy_h2d_devRead (dID rID ctx : Nat) (s : GpuArray T) (a b j : Nat) :
    (GpuArray.copy dID rID ctx s Direction.HOST_TO_DEVICE a b).1.devMemAt s.m_currentRead j
      = if a ≤ j ∧ j < a + effCount s.m_size b then s.hostMem j
        else s.devMemAt s.m_currentRead j := by
  obtain ⟨sz, d0, d1, v0, v1, hp, uv, db, r, w, hm, m0, m1, q0, q1, p0, p1⟩ := s
  rcases fin2_eq_zero_or_one r with rfl | rfl <;> rfl

theorem copy_h2d_devOther (dID rID ctx : Nat) (s : GpuArray T) (a b j : Nat) :
    (GpuArray.copy dID rID ctx s Direction.HOST_TO_DEVICE a b).1.devMemAt
        (otherSlot s.m_currentRead) j
      = s.devMemAt (otherSlot s.m_currentRead) j := by
  obtain ⟨sz, d0, d1, v0, v1, hp, uv, db, r, w, hm, m0, m1, q0, q1, p0, p1⟩ := s
  rcases fin2_eq_zero_or_one r with rfl | rfl <;> rfl

theorem copy_d2h_hostMem (dID rID ctx : Nat) (s : GpuArray T) (a b j : Nat) :
    (GpuArray.copy dID rID ctx s Direction.DEVICE_TO_HOST a b).1.hostMem j
      = if a ≤ j ∧ j < a + effCount s.m_size b then s.devMemAt s.m_currentRead j
        else s.hostMem j := by
  obtain ⟨sz, d0, d1, v0, v1, hp, uv, db, r, w, hm, m0, m1, q0, q1, p0, p1⟩ := s
  rcases fin2_eq_zero_or_one r with rfl | rfl <;> rfl

theorem copy_d2h_devMem0 (dID rID ctx : Nat) (s : GpuArray T) (a b : Nat) :
    (GpuArray.copy dID rID ctx s Direction.DEVICE_TO_HOST a b).1.devMem0 = s.devMem0 := rfl

theorem copy_d2h_devMem1 (dID rID ctx : Nat) (s : GpuArray T) (a b : Nat) :
    (GpuArray.copy dID rID ctx s Direction.DEVICE_TO_HOST a b).1.devMem1 = s.devMem1 := rfl

/-- A freshly constructed, non-vbo, non-double-buffered instance over Nat. -/
def gpuInit0 : GpuArray Nat :=
  GpuArray.init false false (fun _ => 0) (fun _ => 0) (fun _ => 0)

/-- Inductive invariant of the joint producer/consumer system: the consumer
is halted only with the terminal signal set; the terminal signal is set
exactly when the producer's single signalling assignment has run; and the
signal is set only once no publishes remain. -/
def sysInv {α : Type} (s : SysState α) : Prop :=
  (s.cons = ConsPC.halted → s.simulationFinished = true) ∧
  s.simulationFinished = s.finSignalSent ∧
  (s.finSignalSent = true → s.toPublish = [])

theorem sysInv_init {α : Type} (xs : List α) : sysInv (sysInit xs) :=
  ⟨fun h => (nomatch h), rfl, fun h => (nomatch h)⟩

theorem sysInv_step {α : Type} {s s' : SysState α} (hstep : SysStep s s')
    (hinv : sysInv s) : sysInv s' := by
  obtain ⟨i1, i2, i3⟩ := hinv
  cases hstep with
  | pubStep x rest hpub hwf =>
      exact ⟨i1, i2, fun h => (nomatch (i3 h).symm.trans hpub)⟩
  | finStep hpub hfs =>
      exact ⟨fun _ => rfl, rfl, fun _ => hpub⟩
  | exitStep hc hsim =>
      exact ⟨fun _ => hsim, i2, i3⟩
  | startDrain x hc hsim hwf hslot =>
      exact ⟨fun h => (nomatch h), i2, i3⟩
  | finishDrain hc =>
      exact ⟨fun h => (nomatch h), i2, i3⟩
  | sleepStep hc hsim hwf =>
      exact ⟨i1, i2, i3⟩

theorem sysInv_reach {α : Type} {s0 s : SysState α} (h : SysReach s0 s)
    (h0 : sysInv s0) : sysInv s := by
  induction h with
  | refl => exact h0
  | tail hab hbc ih => exact sysInv_step hbc ih

/-- Local step facts: once the terminal signal has been sent no step changes
it again, and from a mid-drain consumer the only possible consumer move
completes the drain (flag back to Idle), never an exit. -/
theorem sysStep_local {α : Type} {s s' : SysState α} (hstep : SysStep s s') :
    (s.finSignalSent = true →
      s'.simulationFinished = s.simulationFinished ∧ s'.finSignalSent = true) ∧
    (s.cons = ConsPC.drain →
      s'.cons ≠ ConsPC.halted ∧
      (s'.cons = ConsPC.check → s'.shared.writingFinished = true)) := by
  cases hstep with
  | pubStep x rest hpub hwf =>
      exact ⟨fun hf => ⟨rfl, hf⟩,
             fun hd => ⟨fun hh => (nomatch hd.symm.trans hh),
                        fun hh => (nomatch hd.symm.trans hh)⟩⟩
  | finStep hpub hfs =>
      exact ⟨fun hf => (nomatch hfs.symm.trans hf),
             fun hd => ⟨fun hh => (nomatch hd.symm.trans hh),
                        fun hh => (nomatch hd.symm.trans hh)⟩⟩
  | exitStep hc hsim =>
      exact ⟨fun hf => ⟨rfl, hf⟩, fun hd => (nomatch hc.symm.trans hd)⟩
  | startDrain x hc hsim hwf hslot =>
      exact ⟨fun hf => ⟨rfl, hf⟩, fun hd => (nomatch hc.symm.trans hd)⟩
  | finishDrain hc =>
      exact ⟨fun hf => ⟨rfl, hf⟩, fun hd => ⟨fun hh => (nomatch hh), fun _ => rfl⟩⟩
  | sleepStep hc hsim hwf =>
      exact ⟨fun hf => ⟨rfl, hf⟩, fun hd => (nomatch hc.symm.trans hd)⟩

/-- From any Idle checkpoint state, the system can run to completion: publish
and drain every remaining snapshot in order, send the terminal signal once,
and halt the consumer with the mailbox Idle. -/
theorem sys_complete_run :
    ∀ (α : Type) (xs : List α) (s : SysState α),
      s.cons = ConsPC.check → s.simulationFinished = false →
      s.finSignalSent = false →
      s.shared = { writingFinished := true, slot := none } → s.toPublish = xs →
      ∃ t : SysState α, SysReach s t ∧ t.cons = ConsPC.halted ∧
        t.simulationFinished = true ∧ t.finSignalSent = true ∧
        t.shared.writingFinished = true ∧ t.written = s.written ++ xs := by
  intro α xs
  induction xs with
  | nil =>
      intro s hc hsim hfs hsh hpub
      refine ⟨{ s with finSignalSent := true, simulationFinished := true,
                       cons := ConsPC.halted }, ?_, rfl, rfl, rfl, ?_, ?_⟩
      · exact Relation.ReflTransGen.head (SysStep.finStep s hpub hfs)
          (Relation.ReflTransGen.head
            (SysStep.exitStep
              { s with finSignalSent := true, simulationFinished := true } hc rfl)
            Relation.ReflTransGen.refl)
      · show s.shared.writingFinished = true
        rw [hsh]
      · exact (List.append_nil s.written).symm
  | cons x rest ih =>
      intro s hc hsim hfs hsh hpub
      obtain ⟨t, hreach, h1, h2, h3, h4, h5⟩ :=
        ih { s with toPublish := rest, cons := ConsPC.check,
                    written := s.written ++ [x],
                    shared := { writingFinished := true, slot := none } }
          rfl hsim hfs rfl rfl
      refine ⟨t, ?_, h1, h2, h3, h4, ?_⟩
      · refine Relation.ReflTransGen.head (SysStep.pubStep s x rest hpub ?_)
          (Relation.ReflTransGen.head
            (SysStep.startDrain
              { s with toPublish := rest, shared := publish s.shared x } x hc hsim rfl rfl)
            (Relation.ReflTransGen.head
              (SysStep.finishDrain
                { s with toPublish := rest, shared := publish s.shared x,
                         cons := ConsPC.drain, written := s.written ++ [x] } rfl)
              hreach))
        rw [hsh]
      · rw [h5]
        show (s.written ++ [x]) ++ rest = s.written ++ (x :: rest)
        rw [List.append_assoc]
        rfl

/-
Claim theorems.
-/

/-- C1: the claim that alloc followed by free releases every resource exactly
once is violated by the code.  For the plain device-memory configuration
(vbo = false, doubleBuffered = false, size 4), alloc acquires a cudaMalloc
allocation for slot 0 (first conjunct), yet after free that allocation is
still held (second conjunct) and the stale device pointer is still stored
(third conjunct), because free() tests the array `m_vbo`, which is always
non-null, and therefore never calls freeDevice; only the host allocation is
released (fourth conjunct). -/
theorem C1_device_memory_leak :
    (gpuInit0.alloc 4 false false false).devHeld0 = true ∧
    ((gpuInit0.alloc 4 false false false).free).devHeld0 = true ∧
    ((gpuInit0.alloc 4 false false false).free).m_dptr0 = true ∧
    ((gpuInit0.alloc 4 false false false).free).m_hptr = false :=
  ⟨rfl, rfl, rfl, rfl⟩

/-- C5 counterexample: the claim that copy restores the device context that
was active at entry fails at a concrete input.  With devID = 0,
renderDevID = 1 and entry context 2, copy returns with context devID = 0,
not 2: the source ends with cudaSetDevice(devID) and never reads the entry
context. -/
theorem C5_entry_context_not_restored :
    (GpuArray.copy 0 1 2 gpuInit0 Direction.HOST_TO_DEVICE 0 1).2 ≠ 2 := by
  intro h
  exact absurd h (by decide)

/-- C5 amended: copy sets the active device context to renderDevID for the
transfer and unconditionally sets it to the global devID before returning, so
the context at exit is always devID; the entry context is restored only when
it already equals devID. -/
theorem C5_exit_context_is_devID :
    ∀ (T : Type) (dID rID ctx : Nat) (s : GpuArray T) (dir : Direction) (a b : Nat),
      (GpuArray.copy dID rID ctx s dir a b).2 = dID := by
  intro T dID rID ctx s dir a b
  cases dir <;> rfl

/-- A concrete allocated single-buffered (non-double-buffered) instance. -/
def c6state : GpuArray Nat := gpuInit0.alloc 2 false false false

/-- C6 counterexample: the claim that swap() on a non-double-buffered
instance is rejected as a usage error fails on the code.  On the concrete
non-double-buffered instance c6state, swap() returns the state completely
unchanged - a silent no-op; swap has no error outcome at all in the source. -/
theorem C6_swap_silently_ignored :
    GpuArray.swap c6state = c6state ∧ c6state.m_doubleBuffer = false :=
  ⟨rfl, rfl⟩

/-- C6 amended: swap() never reports an error.  It unconditionally exchanges
the read and write indices in O(1); on an instance whose indices are equal
(as on every non-double-buffered instance, where both are 0) it is a silent
no-op rather than a reported UsageError. -/
theorem C6_swap_unconditional_exchange :
    ∀ (T : Type) (s : GpuArray T),
      (GpuArray.swap s).m_currentRead = s.m_currentWrite ∧
      (GpuArray.swap s).m_currentWrite = s.m_currentRead ∧
      (s.m_currentRead = s.m_currentWrite → GpuArray.swap s = s) := by
  intro T s
  refine ⟨rfl, rfl, fun h => ?_⟩
  apply GpuArray.ext <;> first | rfl | exact h | exact h.symm

/-- C6 witness: the amended statement instantiated at the concrete
non-double-buffered instance c6state, whose indices are both 0. -/
theorem C6_swap_unconditional_exchange_w :
    (GpuArray.swap c6state).m_currentRead = c6state.m_currentWrite ∧
    (GpuArray.swap c6state).m_currentWrite = c6state.m_currentRead ∧
    GpuArray.swap c6state = c6state :=
  ⟨(C6_swap_unconditional_exchange Nat c6state).1,
   (C6_swap_unconditional_exchange Nat c6state).2.1,
   (C6_swap_unconditional_exchange Nat c6state).2.2 rfl⟩

/-- The run alloc(doubleBuffer); swap(); alloc(doubleBuffer): alloc only ever
sets m_currentWrite to 1 and never resets m_currentRead, so re-allocating
after a swap leaves both indices equal to 1. -/
def c2state : GpuArray Nat :=
  gpuInit0.run
    [GpuOp.allocOp 4 false true false, GpuOp.swapOp, GpuOp.allocOp 4 false true false]

/-- C2 counterexample: the claim that the role-index invariant holds for
every sequence of operations, repetitions included, fails on the code.  After
the concrete sequence alloc(double-buffered), swap, alloc(double-buffered),
the instance is double-buffered with currentRead = currentWrite = 1, so the
two indices are equal and the invariant is violated. -/
theorem C2_realloc_breaks_invariant :
    c2state.m_doubleBuffer = true ∧ c2state.m_currentRead = 1 ∧
    c2state.m_currentWrite = 1 ∧ roleInv c2state = false :=
  ⟨rfl, rfl, rfl, rfl⟩

/-- C2 amended: for every operation sequence in which alloc is called exactly
once, first (matching the allocate-once lifecycle of the spec), every state
from the alloc onward satisfies the role-index invariant: equal zero indices
when not double-buffered, the two distinct indices 0 and 1 when
double-buffered.  This holds for every allocation configuration, every
constructor junk value and every following alloc-free operation sequence. -/
theorem C2_role_invariant_single_alloc :
    ∀ (T : Type) (u0 d0 : Bool) (h0 m0 m1 : Nat → T) (n : Nat) (v d u : Bool)
      (ops : List (GpuOp T)), (∀ op ∈ ops, noAllocOp op) →
      ∀ s ∈ ((GpuArray.init u0 d0 h0 m0 m1).alloc n v d u).states ops,
        roleInv s = true := by
  intro T u0 d0 h0 m0 m1 n v d u ops hops s hs
  apply roleInv_states _ ops hops _ s hs
  have hc := ctrl_alloc (GpuArray.init u0 d0 h0 m0 m1) n v d u
  unfold ctrl at hc
  rw [Prod.ext_iff, Prod.ext_iff] at hc
  obtain ⟨h1, h2, h3⟩ := hc
  unfold roleInv
  rw [show ((GpuArray.init u0 d0 h0 m0 m1).alloc n v d u).m_doubleBuffer = d from h1,
      show ((GpuArray.init u0 d0 h0 m0 m1).alloc n v d u).m_currentRead =
        (GpuArray.init u0 d0 h0 m0 m1).m_currentRead from h2,
      show ((GpuArray.init u0 d0 h0 m0 m1).alloc n v d u).m_currentWrite =
        (if d then 1 else (GpuArray.init u0 d0 h0 m0 m1).m_currentWrite) from h3]
  cases d <;> rfl

/-- C2 witness: the amended statement instantiated at a double-buffered
allocation followed by one swap; the invariant holds at the state after the
swap. -/
theorem C2_role_invariant_single_alloc_w :
    roleInv ((gpuInit0.alloc 4 false true false).step GpuOp.swapOp) = true :=
  C2_role_invariant_single_alloc Nat false false (fun _ => 0) (fun _ => 0) (fun _ => 0)
    4 false true false [GpuOp.swapOp]
    (by intro op hop; cases List.mem_singleton.mp hop; trivial)
    ((gpuInit0.alloc 4 false true false).step GpuOp.swapOp)
    (by simp only [GpuArray.states, List.mem_cons, List.mem_singleton]
        exact Or.inr (Or.inl rfl))

/-- An allocated size-2 buffer whose host contents 10, 11, 12, ... differ
from the device contents 0, 0, 0, ... -/
def c4state : GpuArray Nat :=
  (GpuArray.init false false (fun j => 10 + j) (fun _ => 0) (fun _ => 0)).alloc
    2 false false false

/-- C4 counterexample: the claim that a count argument of 0 means all
elements of the buffer are transferred fails on the code for a nonzero start.
On the size-2 buffer c4state, copy(HOST_TO_DEVICE, start = 1, count = 0)
substitutes count = m_size = 2 and transfers the index range [1, 3) - running
past the end of the buffer - so element 0 of the buffer is not transferred:
the read device slot still differs from the host at index 0. -/
theorem C4_count_zero_not_whole_buffer :
    c4state.m_size = 2 ∧
    (GpuArray.copy 0 0 0 c4state Direction.HOST_TO_DEVICE 1 0).1.devMemAt
        c4state.m_currentRead 0
      ≠ c4state.hostMem 0 :=
  ⟨rfl, by decide⟩

/-- C4 amended: copy(direction, start, count) transfers exactly
effCount(m_size, count) elements starting at offset start between the host
slot and the device slot selected by currentRead, in both directions, where
effCount substitutes m_size for a count of 0; elements outside the range, the
other device slot and the source side are untouched.  With the default
start = 0 a count of 0 therefore transfers all elements of the buffer;
with start > 0 it transfers m_size elements beginning at start instead. -/
theorem C4_copy_transfers_range :
    ∀ (T : Type) (dID rID ctx : Nat) (s : GpuArray T) (dir : Direction) (a b j : Nat),
      (dir = Direction.HOST_TO_DEVICE →
        (GpuArray.copy dID rID ctx s dir a b).1.hostMem j = s.hostMem j ∧
        ((GpuArray.copy dID rID ctx s dir a b).1.devMemAt s.m_currentRead j =
          if a ≤ j ∧ j < a + effCount s.m_size b then s.hostMem j
          else s.devMemAt s.m_currentRead j) ∧
        (GpuArray.copy dID rID ctx s dir a b).1.devMemAt (otherSlot s.m_currentRead) j =
          s.devMemAt (otherSlot s.m_currentRead) j) ∧
      (dir = Direction.DEVICE_TO_HOST →
        (GpuArray.copy dID rID ctx s dir a b).1.devMem0 j = s.devMem0 j ∧
        (GpuArray.copy dID rID ctx s dir a b).1.devMem1 j = s.devMem1 j ∧
        ((GpuArray.copy dID rID ctx s dir a b).1.hostMem j =
          if a ≤ j ∧ j < a + effCount s.m_size b then s.devMemAt s.m_currentRead j
          else s.hostMem j)) := by
  intro T dID rID ctx s dir a b j
  constructor
  · intro hdir; subst hdir
    exact ⟨copy_h2d_hostMem dID rID ctx s a b j,
           copy_h2d_devRead dID rID ctx s a b j,
           copy_h2d_devOther dID rID ctx s a b j⟩
  · intro hdir; subst hdir
    refine ⟨?_, ?_, copy_d2h_hostMem dID rID ctx s a b j⟩
    · rw [copy_d2h_devMem0]
    · rw [copy_d2h_devMem1]

/-- C4 witness: the amended statement instantiated at the concrete buffer
c4state with the default arguments start = 0, count = 0, direction
HOST_TO_DEVICE, evaluated for buffer element 1. -/
theorem C4_copy_transfers_range_w :
    (GpuArray.copy 0 0 0 c4state Direction.HOST_TO_DEVICE 0 0).1.hostMem 1 =
      c4state.hostMem 1 ∧
    (GpuArray.copy 0 0 0 c4state Direction.HOST_TO_DEVICE 0 0).1.devMemAt
        c4state.m_currentRead 1 =
      if 0 ≤ 1 ∧ 1 < 0 + effCount c4state.m_size 0 then c4state.hostMem 1
      else c4state.devMemAt c4state.m_currentRead 1 :=
  ⟨((C4_copy_transfers_range Nat 0 0 0 c4state Direction.HOST_TO_DEVICE 0 0 1).1 rfl).1,
   ((C4_copy_transfers_range Nat 0 0 0 c4state Direction.HOST_TO_DEVICE 0 0 1).1 rfl).2.1⟩

/-- C7: copy(HOST_TO_DEVICE, start, count) followed by
copy(DEVICE_TO_HOST, start, count) over the same range leaves the host array
exactly equal to its contents before the two copies, for every count in
[0, size] and start in [0, size - count], every buffer state and any device
ids and entry contexts.  Both copies use the same effective range and the
same currentRead slot, so the write-back returns exactly the values that were
written out. -/
theorem C7_roundtrip_preserves_host :
    ∀ (T : Type) (dID rID ctx dID' rID' ctx' : Nat) (s : GpuArray T) (a b : Nat),
      b ≤ s.m_size → a ≤ s.m_size - b →
      (GpuArray.copy dID' rID' ctx'
          (GpuArray.copy dID rID ctx s Direction.HOST_TO_DEVICE a b).1
          Direction.DEVICE_TO_HOST a b).1.hostMem
        = s.hostMem := by
  intro T dID rID ctx dID' rID' ctx' s a b hb ha
  funext j
  rw [copy_d2h_hostMem, copy_size, copy_read, copy_h2d_devRead, copy_h2d_hostMem]
  by_cases h : a ≤ j ∧ j < a + effCount s.m_size b
  · rw [if_pos h, if_pos h]
  · rw [if_neg h]

/-- C7 witness: the round trip instantiated on the concrete size-2 buffer
c4state with start = 1, count = 1, which lies inside the required ranges. -/
theorem C7_roundtrip_preserves_host_w :
    (GpuArray.copy 0 0 0
        (GpuArray.copy 0 0 0 c4state Direction.HOST_TO_DEVICE 1 1).1
        Direction.DEVICE_TO_HOST 1 1).1.hostMem
      = c4state.hostMem :=
  C7_roundtrip_preserves_host Nat 0 0 0 0 0 0 c4state 1 1 (by decide) (by decide)

/-- C8: on a graphics-buffer-backed instance (nonzero buffer-object name for
slot 0, and for slot 1 whenever double-buffered; the read index can be 1 only
when double-buffered), the sequence map, device write, unmap leaves the
device pointer of the read slot nulled, so a following getDevicePtr query
yields the null sentinel, never the stale device address that was valid while
mapped: unmap stores 0 into m_dptr for every mapped slot. -/
theorem C8_query_after_unmap_is_null :
    ∀ (T : Type) (s : GpuArray T) (g0 g1 : Nat → T),
      s.m_vbo0 ≠ 0 → (s.m_doubleBuffer = true → s.m_vbo1 ≠ 0) →
      (s.m_currentRead = 1 → s.m_doubleBuffer = true) →
      (((s.map).devWrite g0 g1).unmap).getDevicePtr = false := by
  intro T s g0 g1 h0 h1 hr
  obtain ⟨sz, d0, d1, v0, v1, hp, uv, db, r, w, hm, m0, m1, q0, q1, p0, p1⟩ := s
  have h0' : v0 ≠ 0 := h0
  have h1' : db = true → v1 ≠ 0 := h1
  have hr' : r = 1 → db = true := hr
  simp only [GpuArray.map, GpuArray.devWrite, GpuArray.unmap, GpuArray.getDevicePtr]
  rcases fin2_eq_zero_or_one r with rfl | rfl
  · simp [h0']
  · have hdb : db = true := hr' rfl
    subst hdb
    simp [h1' rfl]

/-- A double-buffered graphics-buffer-backed instance. -/
def c8state : GpuArray Nat := gpuInit0.alloc 4 true true false

/-- C8 witness: the statement instantiated at the concrete double-buffered
vbo-backed instance c8state with a concrete device write. -/
theorem C8_query_after_unmap_is_null_w :
    (((c8state.map).devWrite (fun _ => 7) (fun _ => 8)).unmap).getDevicePtr = false :=
  C8_query_after_unmap_is_null Nat c8state (fun _ => 7) (fun _ => 8)
    (by decide) (fun _ => by decide) (fun _ => rfl)

/-- C3: a consume attempt while the flag is Idle (writingFinished true)
returns nothing, sleeps the fixed 100 microseconds and leaves the mailbox
unchanged; after one publish, the next consume attempt succeeds: it returns
the published snapshot for writing, releases the slot and returns the flag to
Idle with no sleep, and the consume attempt after that drains nothing - one
drain per publish. -/
theorem C3_tryConsume_poll :
    ∀ (α : Type) (d : IOSharedData α) (x : α),
      (d.writingFinished = true → tryConsume d = (none, 100, d)) ∧
      tryConsume (publish d x) =
        (some x, 0, { writingFinished := true, slot := none }) ∧
      tryConsume ({ writingFinished := true, slot := none } : IOSharedData α) =
        (none, 100, { writingFinished := true, slot := none }) := by
  intro α d x
  refine ⟨fun h => ?_, rfl, rfl⟩
  unfold tryConsume
  rw [h]
  rfl

/-- C3 witness: the statement instantiated on an Idle mailbox over Nat and
the published snapshot 7. -/
theorem C3_tryConsume_poll_w :
    tryConsume ({ writingFinished := true, slot := none } : IOSharedData Nat) =
      (none, 100, { writingFinished := true, slot := none }) ∧
    tryConsume (publish { writingFinished := true, slot := none } 7) =
      (some 7, 0, { writingFinished := true, slot := none }) :=
  ⟨(C3_tryConsume_poll Nat { writingFinished := true, slot := none } 7).1 rfl,
   (C3_tryConsume_poll Nat { writingFinished := true, slot := none } 7).2.1⟩

/-- C9: termination protocol of the poll loop.  For every reachable joint
state: the consumer is halted only if the distinct terminal signal
simulationFinished (independent of the Idle/Ready flag) is set; the signal is
set only by the producer's single signalling assignment, which runs after
every publish has been issued, and once sent no step changes the signal
again; and from a mid-drain consumer no step can reach the halted state - the
consumer's only move completes the snapshot write and returns the flag to
Idle before the loop condition is re-tested.  Moreover a complete run exists:
the system can publish and drain every snapshot, send the signal once and
halt. -/
theorem C9_termination_protocol :
    ∀ (α : Type) (xs : List α),
      (∀ s : SysState α, SysReach (sysInit xs) s →
        (s.cons = ConsPC.halted → s.simulationFinished = true) ∧
        (s.simulationFinished = true → s.finSignalSent = true ∧ s.toPublish = []) ∧
        (∀ s', SysStep s s' →
          (s.finSignalSent = true →
            s'.simulationFinished = s.simulationFinished ∧ s'.finSignalSent = true) ∧
          (s.cons = ConsPC.drain →
            s'.cons ≠ ConsPC.halted ∧
            (s'.cons = ConsPC.check → s'.shared.writingFinished = true)))) ∧
      (∃ t : SysState α, SysReach (sysInit xs) t ∧ t.cons = ConsPC.halted ∧
        t.simulationFinished = true ∧ t.shared.writingFinished = true ∧
        t.written = xs) := by
  intro α xs
  constructor
  · intro s hreach
    obtain ⟨i1, i2, i3⟩ := sysInv_reach hreach (sysInv_init xs)
    exact ⟨i1, fun hs => ⟨i2.symm.trans hs, i3 (i2.symm.trans hs)⟩,
           fun s' hstep => sysStep_local hstep⟩
  · obtain ⟨t, hreach, h1, h2, h3, h4, h5⟩ :=
      sys_complete_run α xs (sysInit xs) rfl rfl rfl rfl rfl
    refine ⟨t, hreach, h1, h2, h4, ?_⟩
    rw [h5]
    rfl

/-- A reachable mid-drain state over Nat: the producer has published the
snapshot 3 and the consumer has issued its write but not yet released the
slot. -/
def c9drain : SysState Nat :=
  { sysInit [3] with
      toPublish := []
      shared := publish (sysInit [3]).shared 3
      cons := ConsPC.drain
      written := (sysInit [3]).written ++ [3] }

/-- C9 witness: the statement instantiated at the single-snapshot run over
Nat, applied at the concrete reachable mid-drain state c9drain and its
drain-completing step: that step does not halt the consumer and returns the
flag to Idle. -/
theorem C9_termination_protocol_w :
    ({ c9drain with cons := ConsPC.check
                    shared := { writingFinished := true, slot := none } }
        : SysState Nat).cons ≠ ConsPC.halted ∧
    (({ c9drain with cons := ConsPC.check
                     shared := { writingFinished := true, slot := none } }
        : SysState Nat).cons = ConsPC.check →
      ({ c9drain with cons := ConsPC.check
                      shared := { writingFinished := true, slot := none } }
          : SysState Nat).shared.writingFinished = true) :=
  (((C9_termination_protocol Nat [3]).1 c9drain
      (Relation.ReflTransGen.head (SysStep.pubStep (sysInit [3]) 3 [] rfl rfl)
        (Relation.ReflTransGen.head
          (SysStep.startDrain
            { sysInit [3] with toPublish := [],
                               shared := publish (sysInit [3]).shared 3 }
            3 rfl rfl rfl rfl)
          Relation.ReflTransGen.refl))).2.2
    { c9drain with cons := ConsPC.check
                   shared := { writingFinished := true, slot := none } }
    (SysStep.finishDrain c9drain rfl)).2 rfl

/-- C10: memset on a GpuArray is a complete no-op: for every state, value,
start and count, the returned object - host array, device stores, buffer
handles, indices and flags - is exactly the argument, because the body of
GpuArray<T>::memset is empty. -/
theorem C10_memset_is_noop :
    ∀ (T : Type) (s : GpuArray T) (v : T) (a b : Nat), s.memset v a b = s :=
  fun _ _ _ _ _ => rfl

end Bonsai
